import Mathlib

/-!
Shallow embedding of the configuration-resolution and invocation-compilation
engine of `src/build.rs` (the `zigcli` build-delegation crate).

Rust strings and `OsString`s are modelled as Lean `String`s, `PathBuf`s as
`String`s with explicit join semantics, `usize` as `Nat`, the process
environment as a function `String → Option String`, and fatal failures
(`panic!` via `fail`) as the `Except String` error channel.  The `HashMap`
environment cache is modelled as an association list.
-/

namespace Zigcli

/-- Model of Rust `str::starts_with`: the pattern's characters are a prefix
of the subject's characters. -/
def strStartsWith (s pat : String) : Bool :=
  pat.toList.isPrefixOf s.toList

/-- Splitting a character list at every occurrence of the separator `c`;
an empty input yields one empty segment, like Rust `str::split`. -/
def splitChars (c : Char) : List Char → List (List Char)
  | [] => [[]]
  | x :: xs =>
    match splitChars c xs with
    | [] => [[x]]
    | h :: t => if x = c then [] :: h :: t else (x :: h) :: t

/-- Model of `Path::join` / joining against the current working directory:
an absolute argument replaces the base, a relative one is appended. -/
def joinPath (cwd p : String) : String :=
  if strStartsWith p "/" then p else cwd ++ "/" ++ p

/-- `ReleaseMode` from `build.rs`. -/
inductive ReleaseMode
  | Auto
  | Fast
  | Safe
  | Small
deriving DecidableEq, Repr

/-- `Optimize` from `build.rs`. -/
inductive Optimize
  | Default
  | Debug
  | ReleaseSafe
  | ReleaseFast
  | ReleaseSmall
deriving DecidableEq, Repr

/-- The `Build` configuration struct from `build.rs`, field for field.
`prefix` is renamed `prefixDir` (`prefix` is reserved in Lean). -/
structure Build where
  path : String
  step : Option String
  prefixDir : Option String
  prefixLibDir : Option String
  prefixExeDir : Option String
  prefixIncludeDir : Option String
  release : Option ReleaseMode
  darling : Option Bool
  qemu : Option Bool
  glibcRuntimes : Option String
  rosetta : Option Bool
  wasmtime : Option Bool
  wine : Option Bool
  verbose : Bool
  prominentCompileErrors : Bool
  jobs : Option Nat
  maxrss : Option Nat
  skipOomSteps : Bool
  incremental : Option Bool
  target : Option String
  cpu : Option String
  dynamicLinker : Option String
  optimize : Option Optimize
  options : List String
  referenceTrace : Option Nat
  noReferenceTrace : Bool
  buildFile : Option String
  cacheDir : Option String
  globalCacheDir : Option String
  zigLibDir : Option String
  buildRunner : Option String
  seed : Option Nat
  verboseLink : Bool
  verboseAir : Bool
  verboseLlvmIr : Option String
  verboseLlvmBc : Option String
  verboseCimport : Bool
  verboseCc : Bool
  verboseLlvmCpuFeatures : Bool
  envCache : List (String × Option String)
deriving DecidableEq, Repr

/-- `Build::new`: every field blank; the project path is joined against the
current working directory at construction time. -/
def Build.new (cwd p : String) : Build where
  path := joinPath cwd p
  step := none
  prefixDir := none
  prefixLibDir := none
  prefixExeDir := none
  prefixIncludeDir := none
  release := none
  darling := none
  qemu := none
  glibcRuntimes := none
  rosetta := none
  wasmtime := none
  wine := none
  verbose := false
  prominentCompileErrors := false
  jobs := none
  maxrss := none
  skipOomSteps := false
  incremental := none
  target := none
  cpu := none
  dynamicLinker := none
  optimize := none
  options := []
  referenceTrace := none
  noReferenceTrace := false
  buildFile := none
  cacheDir := none
  globalCacheDir := none
  zigLibDir := none
  buildRunner := none
  seed := none
  verboseLink := false
  verboseAir := false
  verboseLlvmIr := none
  verboseLlvmBc := none
  verboseCimport := false
  verboseCc := false
  verboseLlvmCpuFeatures := false
  envCache := []

/-- `Build::step` setter. -/
def Build.setStep (b : Build) (s : String) : Build := { b with step := some s }

/-- `Build::prefix` setter: joins against the current working directory. -/
def Build.setPrefix (b : Build) (cwd p : String) : Build :=
  { b with prefixDir := some (joinPath cwd p) }

/-- `Build::release` setter. -/
def Build.setRelease (b : Build) (r : ReleaseMode) : Build :=
  { b with release := some r }

/-- `Build::verbose` setter. -/
def Build.setVerbose (b : Build) : Build := { b with verbose := true }

/-- `Build::jobs` setter. -/
def Build.setJobs (b : Build) (n : Nat) : Build := { b with jobs := some n }

/-- `Build::maxrss` setter. -/
def Build.setMaxrss (b : Build) (n : Nat) : Build := { b with maxrss := some n }

/-- `Build::target` setter. -/
def Build.setTarget (b : Build) (t : String) : Build :=
  { b with target := some t }

/-- `Build::cpu` setter. -/
def Build.setCpu (b : Build) (c : String) : Build := { b with cpu := some c }

/-- `Build::add_cpu`: if no CPU string is set yet, the argument becomes the
whole string; otherwise `"+"` and the argument are pushed onto the end. -/
def Build.add_cpu (b : Build) (c : String) : Build :=
  match b.cpu with
  | none => { b with cpu := some c }
  | some x => { b with cpu := some (x ++ "+" ++ c) }

/-- `Build::remove_cpu`: if no CPU string is set yet, the argument becomes
the whole string; otherwise `"-"` and the argument are pushed onto the end. -/
def Build.remove_cpu (b : Build) (c : String) : Build :=
  match b.cpu with
  | none => { b with cpu := some c }
  | some x => { b with cpu := some (x ++ "-" ++ c) }

/-- `Build::dynamic_linker` setter: joins against the working directory. -/
def Build.setDynamicLinker (b : Build) (cwd p : String) : Build :=
  { b with dynamicLinker := some (joinPath cwd p) }

/-- `Build::optimize` setter. -/
def Build.setOptimize (b : Build) (o : Optimize) : Build :=
  { b with optimize := some o }

/-- `Build::cache_dir` setter: joins against the working directory. -/
def Build.setCacheDir (b : Build) (cwd p : String) : Build :=
  { b with cacheDir := some (joinPath cwd p) }

/-- `Build::option`: the option must start with `-D` and must not start with
any of `-Dtarget`, `-Dcpu`, `-Ddynamic-linker`, `-Doptimize`; a violation is
a `panic!`, modelled as `Except.error`, raised before the push, so the
configuration is unchanged on failure. -/
def Build.option (b : Build) (opt : String) : Except String Build :=
  if ¬ strStartsWith opt "-D" then
    .error ("invalid option: " ++ opt)
  else if strStartsWith opt "-Dtarget" then
    .error ("can not set target through an option: " ++ opt)
  else if strStartsWith opt "-Dcpu" then
    .error ("can not set cpu through an option: " ++ opt)
  else if strStartsWith opt "-Ddynamic-linker" then
    .error ("can not set dynamic-linker through an option: " ++ opt)
  else if strStartsWith opt "-Doptimize" then
    .error ("can not set optimize through an option: " ++ opt)
  else
    .ok { b with options := b.options ++ [opt] }

/-- The process environment: a name either has a value or is absent. -/
def Env := String → Option String

/-- `getenv_unwrap`: reads the live environment directly (no cache); a
missing variable is a fatal failure. -/
def getenv_unwrap (env : Env) (v : String) : Except String String :=
  match env v with
  | some s => .ok s
  | none => .error ("environment variable `" ++ v ++ "` not defined")

/-- `Build::getenv_os`: memoized read-through lookup.  A cached name (hit,
even a cached absence) is answered from the cache; a miss reads the live
environment and stores the result, absence included. -/
def Build.getenv_os (b : Build) (env : Env) (v : String) :
    Option String × Build :=
  match b.envCache.lookup v with
  | some val => (val, b)
  | none => (env v, { b with envCache := (v, env v) :: b.envCache })

/-- `translate_x86_target_feature`: the fixed x86 rename table; every
feature outside the table passes through unchanged. -/
def translate_x86_target_feature (feature : String) : String :=
  if feature = "avx512vbmi1" then "avx512vbmi"
  else if feature = "bmi1" then "bmi"
  else if feature = "cmpxchg16b" then "cx16"
  else if feature = "rdrand" then "rdrnd"
  else if feature = "lahfsahf" then "sahf"
  else if feature = "pclmulqdq" then "pclmul"
  else feature

/-- Model of Rust `str::split(',')`: segments of the string between
commas, with empty segments preserved (an empty string yields `[""]`). -/
def strSplitOnChar (s : String) (c : Char) : List String :=
  (splitChars c s.data).map String.mk

/-- Model of `feature.replace("-", "_").replace(".", "_")`: both patterns
are single characters, so the replacement is character-wise. -/
def normalizeFeature (f : String) : String :=
  String.mk ((f.data.map (fun c => if c = '-' then '_' else c)).map
    (fun c => if c = '.' then '_' else c))

/-- `translate_arch_feature`: normalize `-` and `.` to `_`, then apply the
x86 rename table only when the architecture name starts with `x86`. -/
def translate_arch_feature (arch feature : String) : String :=
  if strStartsWith arch "x86" then
    translate_x86_target_feature (normalizeFeature feature)
  else normalizeFeature feature

/-- `parse_target_triplet`: reads the four `CARGO_CFG_TARGET_*` variables;
the ABI token is the concatenation of environment and ABI, the triple is
`arch-os` when that token is empty and `arch-os-token` otherwise.  Returns
(triple, arch, os, optional ABI token). -/
def parse_target_triplet (env : Env) :
    Except String (String × String × String × Option String) :=
  match getenv_unwrap env "CARGO_CFG_TARGET_ARCH" with
  | .error e => .error e
  | .ok arch =>
  match getenv_unwrap env "CARGO_CFG_TARGET_OS" with
  | .error e => .error e
  | .ok sys =>
  match getenv_unwrap env "CARGO_CFG_TARGET_ENV" with
  | .error e => .error e
  | .ok envv =>
  match getenv_unwrap env "CARGO_CFG_TARGET_ABI" with
  | .error e => .error e
  | .ok abi0 =>
    let abi := envv ++ abi0
    if abi.data.isEmpty then .ok (arch ++ "-" ++ sys, arch, sys, none)
    else .ok (arch ++ "-" ++ sys ++ "-" ++ abi, arch, sys, some abi)

/-- The profile-derived default optimization of `Build::build`: `"debug"`
maps to `Debug`, `"release"` and `"bench"` map to `Default`, and any other
value warns (second component `true`) and falls back to `Default`. -/
def profileOptimize (profile : String) : Optimize × Bool :=
  if profile = "debug" then (.Debug, false)
  else if profile = "release" then (.Default, false)
  else if profile = "bench" then (.Default, false)
  else (.Default, true)

/-- The opt-level mapping of `Build::build`: `"0"` maps to `Debug`,
`"1"`/`"2"`/`"3"` to `ReleaseSafe`, `"s"`/`"z"` to `ReleaseSmall`, and any
other value warns (second component `true`) and reuses the profile-derived
default. -/
def optLevelOptimize (lvl : String) (dflt : Optimize) : Optimize × Bool :=
  if lvl = "0" then (.Debug, false)
  else if lvl = "1" ∨ lvl = "2" ∨ lvl = "3" then (.ReleaseSafe, false)
  else if lvl = "s" ∨ lvl = "z" then (.ReleaseSmall, false)
  else (dflt, true)

/-- Prefix resolution step of `Build::build`: when unset, the prefix becomes
`$OUT_DIR/zig-out` (set through `Build::prefix`, hence joined against the
working directory). -/
def resolvePrefix (env : Env) (cwd : String) (b : Build) :
    Except String Build :=
  if b.prefixDir.isNone then
    match getenv_unwrap env "OUT_DIR" with
    | .error e => .error e
    | .ok outDir => .ok (b.setPrefix cwd (outDir ++ "/" ++ "zig-out"))
  else .ok b

/-- Optimization resolution step of `Build::build`: runs only when both
`release` and `optimize` are unset; reads `PROFILE` and `OPT_LEVEL`, sets
`release := Auto` exactly when the profile-derived default is `Default`,
and always sets `optimize` to the opt-level mapping's result. -/
def resolveOptimize (env : Env) (b : Build) : Except String Build :=
  if b.release.isNone && b.optimize.isNone then
    match getenv_unwrap env "PROFILE" with
    | .error e => .error e
    | .ok profile =>
      match getenv_unwrap env "OPT_LEVEL" with
      | .error e => .error e
      | .ok lvl =>
        .ok ((if (profileOptimize profile).1 = .Default
              then b.setRelease .Auto else b).setOptimize
          (optLevelOptimize lvl (profileOptimize profile).1).1)
  else .ok b

/-- Target/CPU resolution step of `Build::build`: when both are unset, the
target triple is derived and the CPU string becomes the architecture name
plus every comma-separated `CARGO_CFG_TARGET_FEATURE` entry, each passed
through `translate_arch_feature` and joined with `+`; when only the target
is unset, the target alone is derived. -/
def resolveTarget (env : Env) (b : Build) : Except String Build :=
  if b.target.isNone && b.cpu.isNone then
    match parse_target_triplet env with
    | .error e => .error e
    | .ok (target, arch, _, _) =>
      match getenv_unwrap env "CARGO_CFG_TARGET_FEATURE" with
      | .error e => .error e
      | .ok featList =>
        .ok ((b.setTarget target).setCpu (String.intercalate "+"
          ((arch :: strSplitOnChar featList ',').map
            (fun f => translate_arch_feature arch f))))
  else if b.target.isNone then
    match parse_target_triplet env with
    | .error e => .error e
    | .ok (target, _, _, _) => .ok (b.setTarget target)
  else .ok b

/-- Cache-directory resolution step of `Build::build`: when unset, the
cache directory becomes `$OUT_DIR/.zig-cache` (set through
`Build::cache_dir`, hence joined against the working directory). -/
def resolveCacheDir (env : Env) (cwd : String) (b : Build) :
    Except String Build :=
  if b.cacheDir.isNone then
    match getenv_unwrap env "OUT_DIR" with
    | .error e => .error e
    | .ok outDir => .ok (b.setCacheDir cwd (outDir ++ "/" ++ ".zig-cache"))
  else .ok b

/-- The configuration-resolution phase of `Build::build` (everything before
the argument vector is assembled), in the source's step order. -/
def resolve (env : Env) (cwd : String) (b : Build) : Except String Build :=
  match resolvePrefix env cwd b with
  | .error e => .error e
  | .ok b =>
  match resolveOptimize env b with
  | .error e => .error e
  | .ok b =>
  match resolveTarget env b with
  | .error e => .error e
  | .ok b => resolveCacheDir env cwd b

/-- String form of a non-`Auto` release mode (the `Auto` case is guarded
out in `Build::build` and marked `unreachable!` in the source). -/
def releaseString : ReleaseMode → String
  | .Auto => ""
  | .Fast => "fast"
  | .Safe => "safe"
  | .Small => "small"

/-- String form of a non-`Default` optimize mode (the `Default` case is
guarded out in `Build::build` and marked `unreachable!` in the source). -/
def optimizeString : Optimize → String
  | .Default => ""
  | .Debug => "Debug"
  | .ReleaseSafe => "ReleaseSafe"
  | .ReleaseFast => "ReleaseFast"
  | .ReleaseSmall => "ReleaseSmall"

/-- Tokens emitted for an optional field: an unset field emits nothing
(`if let Some(..)` in the source skips the `cmd.arg` calls). -/
def optArgs {α : Type} (o : Option α) (f : α → List String) : List String :=
  match o with
  | some x => f x
  | none => []

/-- Tokens emitted for a plain boolean flag: `false` emits nothing. -/
def flagArgs (c : Bool) (l : List String) : List String :=
  if c then l else []

/-- The argument vector assembled by `Build::build` after resolution, in the
exact emission order of the source: the `build` subcommand, the step, the
general options, the project-specific options, the free-form options, and
the advanced options.  Mirrors the imperative `cmd.arg` sequence as an
accumulator chain; each conditional emission step appends the tokens the
corresponding `if`/`if let` block of the source emits. -/
def compileArgs (b : Build) : List String :=
  let args := ["build"]
  let args := args ++ optArgs b.step (fun s => [s])
  let args := args ++ optArgs b.prefixDir (fun p => ["--prefix", p])
  let args := args ++ optArgs b.prefixLibDir (fun p => ["--prefix-lib-dir", p])
  let args := args ++ optArgs b.prefixExeDir (fun p => ["--prefix-exe-dir", p])
  let args := args ++
    optArgs b.prefixIncludeDir (fun p => ["--prefix-include-dir", p])
  let args := args ++ optArgs b.release (fun r =>
    if r = .Auto then ["--release"] else ["--release=" ++ releaseString r])
  let args := args ++ optArgs b.darling (fun d =>
    [if d then "-fdarling" else "-fno-darling"])
  let args := args ++ optArgs b.qemu (fun q =>
    [if q then "-fqemu" else "-fno-qemu"])
  let args := args ++ optArgs b.glibcRuntimes (fun p => ["--glibc-runtimes", p])
  let args := args ++ optArgs b.rosetta (fun r =>
    [if r then "-frosetta" else "-fno-rosetta"])
  let args := args ++ optArgs b.wasmtime (fun w =>
    [if w then "-fwasmtime" else "-fno-wasmtime"])
  let args := args ++ optArgs b.wine (fun w =>
    [if w then "-fwine" else "-fno-wine"])
  let args := args ++ flagArgs b.verbose ["--verbose"]
  let args := args ++
    flagArgs b.prominentCompileErrors ["--prominent-compile-errors"]
  let args := args ++ optArgs b.jobs (fun j => ["-j" ++ toString j])
  let args := args ++ optArgs b.maxrss (fun m => ["--maxrss", toString m])
  let args := args ++ flagArgs b.skipOomSteps ["--skip-oom-steps"]
  let args := args ++ optArgs b.incremental (fun i =>
    [if i then "-fincremental" else "-fno-incremental"])
  let args := args ++ optArgs b.target (fun t => ["-Dtarget=" ++ t])
  let args := args ++ optArgs b.cpu (fun c => ["-Dcpu=" ++ c])
  let args := args ++
    optArgs b.dynamicLinker (fun d => ["-Ddynamic-linker=" ++ d])
  let args := args ++ optArgs b.optimize (fun o =>
    if o = .Default then ["-Doptimize"]
    else ["-Doptimize=" ++ optimizeString o])
  let args := args ++ b.options
  let args := args ++
    optArgs b.referenceTrace (fun r => ["-freference-trace=" ++ toString r])
  let args := args ++ flagArgs b.noReferenceTrace ["-fno-reference-trace"]
  let args := args ++ optArgs b.buildFile (fun p => ["--build-file", p])
  let args := args ++ optArgs b.cacheDir (fun p => ["--cache-dir", p])
  let args := args ++
    optArgs b.globalCacheDir (fun p => ["--global-cache-dir", p])
  let args := args ++ optArgs b.zigLibDir (fun p => ["--zig-lib-dir", p])
  let args := args ++ optArgs b.buildRunner (fun p => ["--build-runner", p])
  let args := args ++ optArgs b.seed (fun s => ["--seed", toString s])
  let args := args ++ flagArgs b.verboseLink ["--verbose-link"]
  let args := args ++ flagArgs b.verboseAir ["--verbose-air"]
  let args := args ++
    optArgs b.verboseLlvmIr (fun p => ["--verbose-llvm-ir=" ++ p])
  let args := args ++
    optArgs b.verboseLlvmBc (fun p => ["--verbose-llvm-bc=" ++ p])
  let args := args ++ flagArgs b.verboseCimport ["--verbose-cimport"]
  let args := args ++ flagArgs b.verboseCc ["--verbose-cc"]
  let args := args ++
    flagArgs b.verboseLlvmCpuFeatures ["--verbose-llvm-cpu-features"]
  args

/-- Section of the argument vector carrying the invocation selector. -/
def stepSection (b : Build) : List String :=
  optArgs b.step (fun s => [s])

/-- Section of the argument vector carrying the general options, in the
fixed declared order of the source. -/
def generalSection (b : Build) : List String :=
  optArgs b.prefixDir (fun p => ["--prefix", p])
  ++ optArgs b.prefixLibDir (fun p => ["--prefix-lib-dir", p])
  ++ optArgs b.prefixExeDir (fun p => ["--prefix-exe-dir", p])
  ++ optArgs b.prefixIncludeDir (fun p => ["--prefix-include-dir", p])
  ++ optArgs b.release (fun r =>
      if r = .Auto then ["--release"] else ["--release=" ++ releaseString r])
  ++ optArgs b.darling (fun d => [if d then "-fdarling" else "-fno-darling"])
  ++ optArgs b.qemu (fun q => [if q then "-fqemu" else "-fno-qemu"])
  ++ optArgs b.glibcRuntimes (fun p => ["--glibc-runtimes", p])
  ++ optArgs b.rosetta (fun r => [if r then "-frosetta" else "-fno-rosetta"])
  ++ optArgs b.wasmtime (fun w => [if w then "-fwasmtime" else "-fno-wasmtime"])
  ++ optArgs b.wine (fun w => [if w then "-fwine" else "-fno-wine"])
  ++ flagArgs b.verbose ["--verbose"]
  ++ flagArgs b.prominentCompileErrors ["--prominent-compile-errors"]
  ++ optArgs b.jobs (fun j => ["-j" ++ toString j])
  ++ optArgs b.maxrss (fun m => ["--maxrss", toString m])
  ++ flagArgs b.skipOomSteps ["--skip-oom-steps"]
  ++ optArgs b.incremental (fun i =>
      [if i then "-fincremental" else "-fno-incremental"])

/-- Section of the argument vector carrying the project-specific options,
in the fixed order target, CPU, dynamic linker, optimize. -/
def projectSection (b : Build) : List String :=
  optArgs b.target (fun t => ["-Dtarget=" ++ t])
  ++ optArgs b.cpu (fun c => ["-Dcpu=" ++ c])
  ++ optArgs b.dynamicLinker (fun d => ["-Ddynamic-linker=" ++ d])
  ++ optArgs b.optimize (fun o =>
      if o = .Default then ["-Doptimize"]
      else ["-Doptimize=" ++ optimizeString o])

/-- Section of the argument vector carrying the advanced/debug options. -/
def advancedSection (b : Build) : List String :=
  optArgs b.referenceTrace (fun r => ["-freference-trace=" ++ toString r])
  ++ flagArgs b.noReferenceTrace ["-fno-reference-trace"]
  ++ optArgs b.buildFile (fun p => ["--build-file", p])
  ++ optArgs b.cacheDir (fun p => ["--cache-dir", p])
  ++ optArgs b.globalCacheDir (fun p => ["--global-cache-dir", p])
  ++ optArgs b.zigLibDir (fun p => ["--zig-lib-dir", p])
  ++ optArgs b.buildRunner (fun p => ["--build-runner", p])
  ++ optArgs b.seed (fun s => ["--seed", toString s])
  ++ flagArgs b.verboseLink ["--verbose-link"]
  ++ flagArgs b.verboseAir ["--verbose-air"]
  ++ optArgs b.verboseLlvmIr (fun p => ["--verbose-llvm-ir=" ++ p])
  ++ optArgs b.verboseLlvmBc (fun p => ["--verbose-llvm-bc=" ++ p])
  ++ flagArgs b.verboseCimport ["--verbose-cimport"]
  ++ flagArgs b.verboseCc ["--verbose-cc"]
  ++ flagArgs b.verboseLlvmCpuFeatures ["--verbose-llvm-cpu-features"]

/-- A representative set of first-class setter calls of the builder, used to
state that the emitted argument order is insensitive to setter call order. -/
inductive Setter
  | sStep (s : String)
  | sPrefix (cwd p : String)
  | sRelease (r : ReleaseMode)
  | sVerbose
  | sJobs (n : Nat)
  | sMaxrss (n : Nat)
  | sTarget (t : String)
  | sCpu (c : String)
  | sDynamicLinker (cwd p : String)
  | sOptimize (o : Optimize)
deriving DecidableEq, Repr

/-- Runs a setter call on a configuration. -/
def Setter.apply : Setter → Build → Build
  | .sStep s, b => b.setStep s
  | .sPrefix cwd p, b => b.setPrefix cwd p
  | .sRelease r, b => b.setRelease r
  | .sVerbose, b => b.setVerbose
  | .sJobs n, b => b.setJobs n
  | .sMaxrss n, b => b.setMaxrss n
  | .sTarget t, b => b.setTarget t
  | .sCpu c, b => b.setCpu c
  | .sDynamicLinker cwd p, b => b.setDynamicLinker cwd p
  | .sOptimize o, b => b.setOptimize o

/-- The configuration field a setter writes to, as an index. -/
def Setter.fieldIndex : Setter → Nat
  | .sStep _ => 0
  | .sPrefix _ _ => 1
  | .sRelease _ => 2
  | .sVerbose => 3
  | .sJobs _ => 4
  | .sMaxrss _ => 5
  | .sTarget _ => 6
  | .sCpu _ => 7
  | .sDynamicLinker _ _ => 8
  | .sOptimize _ => 9

/-- The four collision checks of `Build::option`, exactly as the source
performs them: plain string-prefix tests. -/
def collidesFirstClass (opt : String) : Bool :=
  strStartsWith opt "-Dtarget" || strStartsWith opt "-Dcpu"
    || strStartsWith opt "-Ddynamic-linker" || strStartsWith opt "-Doptimize"

/-- A fresh configuration, used as a concrete evaluation point. -/
def exampleBuild : Build := Build.new "/cwd" "proj"

/-- A configuration whose environment cache already holds a value for
`PROFILE`, used to show that resolution does not consult the cache. -/
def cachedProfileBuild : Build :=
  { exampleBuild with envCache := [("PROFILE", some "debug")] }

/-- A concrete live environment carrying a release profile. -/
def liveReleaseEnv : Env := fun v =>
  if v = "PROFILE" then some "release"
  else if v = "OPT_LEVEL" then some "2"
  else none

theorem strStartsWith_trans {s p q : String} (h1 : strStartsWith s p = true)
    (h2 : strStartsWith p q = true) : strStartsWith s q = true := by
  simp only [strStartsWith, List.isPrefixOf_iff_prefix] at *
  exact h2.trans h1

theorem option_isOk_false (b : Build) (opt : String)
    (h : strStartsWith opt "-D" = false ∨ collidesFirstClass opt = true) :
    (b.option opt).isOk = false := by
  unfold Build.option
  repeat' split
  all_goals first
    | rfl
    | (rename_i h0 h1 h2 h3 h4
       simp only [Bool.not_eq_true, not_not] at h0 h1 h2 h3 h4
       simp_all [collidesFirstClass])

theorem option_ok (b : Build) (opt : String)
    (hD : strStartsWith opt "-D" = true)
    (hC : collidesFirstClass opt = false) :
    b.option opt = .ok { b with options := b.options ++ [opt] } := by
  simp only [collidesFirstClass, Bool.or_eq_false_iff] at hC
  obtain ⟨⟨⟨h1, h2⟩, h3⟩, h4⟩ := hC
  unfold Build.option
  rw [if_neg (by simp [hD]), if_neg (by simp [h1]), if_neg (by simp [h2]),
      if_neg (by simp [h3]), if_neg (by simp [h4])]

/-- C5: for every (architecture, feature) pair with an x86-family
architecture, translation applies the rename table to the normalized
feature, and each tabled entry returns its tabled value; for any feature
outside the table the translation returns the input with `-` and `.`
replaced by `_`; for non-x86 architectures it performs this normalization
only, and the result does not depend on the architecture name. -/
theorem translate_feature_spec :
    ∀ a1 a2 f g : String,
      (strStartsWith a1 "x86" = true →
        translate_arch_feature a1 f
          = translate_x86_target_feature (normalizeFeature f))
      ∧ (strStartsWith a1 "x86" = false →
        translate_arch_feature a1 f = normalizeFeature f)
      ∧ (strStartsWith a1 "x86" = false → strStartsWith a2 "x86" = false →
        translate_arch_feature a1 f = translate_arch_feature a2 f)
      ∧ (g ≠ "avx512vbmi1" → g ≠ "bmi1" → g ≠ "cmpxchg16b" → g ≠ "rdrand" →
         g ≠ "lahfsahf" → g ≠ "pclmulqdq" → translate_x86_target_feature g = g)
      ∧ translate_x86_target_feature "avx512vbmi1" = "avx512vbmi"
      ∧ translate_x86_target_feature "bmi1" = "bmi"
      ∧ translate_x86_target_feature "cmpxchg16b" = "cx16"
      ∧ translate_x86_target_feature "rdrand" = "rdrnd"
      ∧ translate_x86_target_feature "lahfsahf" = "sahf"
      ∧ translate_x86_target_feature "pclmulqdq" = "pclmul" := by
  intro a1 a2 f g
  refine ⟨?_, ?_, ?_, ?_, rfl, rfl, rfl, rfl, rfl, rfl⟩
  · intro h; simp [translate_arch_feature, h]
  · intro h; simp [translate_arch_feature, h]
  · intro h1 h2; simp [translate_arch_feature, h1, h2]
  · intro h1 h2 h3 h4 h5 h6
    simp [translate_x86_target_feature, h1, h2, h3, h4, h5, h6]

/-- Witness for C5 at concrete inputs. -/
theorem translate_feature_spec_witness :
    translate_arch_feature "x86_64" "cmpxchg16b"
      = translate_x86_target_feature (normalizeFeature "cmpxchg16b")
    ∧ translate_arch_feature "aarch64" "neon-x.y"
      = normalizeFeature "neon-x.y"
    ∧ translate_arch_feature "aarch64" "crc" = translate_arch_feature "riscv64" "crc"
    ∧ translate_x86_target_feature "sse" = "sse" :=
  ⟨(translate_feature_spec "x86_64" "x86_64" "cmpxchg16b" "sse").1 (by decide),
   (translate_feature_spec "aarch64" "aarch64" "neon-x.y" "sse").2.1 (by decide),
   (translate_feature_spec "aarch64" "riscv64" "crc" "sse").2.2.1
     (by decide) (by decide),
   (translate_feature_spec "x86_64" "x86_64" "x" "sse").2.2.2.1
     (by decide) (by decide) (by decide) (by decide) (by decide) (by decide)⟩

/-- C6: a free-form option that does not begin with `-D`, or that begins
with one of the four first-class collision prefixes, makes `Build::option`
fail fatally (modelled as the error channel, raised before the push, so the
options list is untouched); any other option is appended to the options
list, the rest of the configuration unchanged. -/
theorem option_validation :
    ∀ (b : Build) (opt : String),
      ((strStartsWith opt "-D" = false ∨ collidesFirstClass opt = true) →
        (b.option opt).isOk = false)
      ∧ (strStartsWith opt "-D" = true → collidesFirstClass opt = false →
        b.option opt = .ok { b with options := b.options ++ [opt] }) :=
  fun b opt => ⟨option_isOk_false b opt, option_ok b opt⟩

/-- Witness for C6 at concrete inputs. -/
theorem option_validation_witness :
    ((exampleBuild.option "nope").isOk = false)
    ∧ exampleBuild.option "-Dfoo=bar"
      = .ok { exampleBuild with
              options := exampleBuild.options ++ ["-Dfoo=bar"] } :=
  ⟨(option_validation exampleBuild "nope").1 (Or.inl (by decide)),
   (option_validation exampleBuild "-Dfoo=bar").2 (by decide) (by decide)⟩

/-- C10: the collision check of `Build::option` is a string-prefix test:
any option beginning with `-Dtarget`, `-Dcpu`, `-Ddynamic-linker` or
`-Doptimize` is fatally rejected, including `-Dtargets=foo` and
`-Dcpu_count=4`, which name distinct options and set no first-class
field. -/
theorem option_collision_prefix_test :
    ∀ b : Build,
      ((b.option "-Dtargets=foo").isOk = false)
      ∧ ((b.option "-Dcpu_count=4").isOk = false)
      ∧ ∀ opt : String,
        (strStartsWith opt "-Dtarget" = true ∨ strStartsWith opt "-Dcpu" = true
          ∨ strStartsWith opt "-Ddynamic-linker" = true
          ∨ strStartsWith opt "-Doptimize" = true) →
        (b.option opt).isOk = false := by
  intro b
  refine ⟨option_isOk_false b _ (Or.inr (by decide)),
          option_isOk_false b _ (Or.inr (by decide)), ?_⟩
  intro opt h
  apply option_isOk_false
  right
  simp only [collidesFirstClass, Bool.or_eq_true]
  tauto

/-- Witness for C10 at a concrete input. -/
theorem option_collision_prefix_test_witness :
    ((exampleBuild.option "-Doptimize=Debug").isOk = false) :=
  (option_collision_prefix_test exampleBuild).2.2 "-Doptimize=Debug"
    (Or.inr (Or.inr (Or.inr (by decide))))

/-- C7 counterexample: on a configuration with no CPU string set, both
`add_cpu` and `remove_cpu` store the bare, unsigned feature name — the
claimed signed token (`"+sse"` resp. `"-sse"`) is not what is stored. -/
theorem cpu_unsigned_when_unset :
    (exampleBuild.remove_cpu "sse").cpu = some "sse"
    ∧ (exampleBuild.add_cpu "sse").cpu = some "sse"
    ∧ ("sse" : String) ≠ "-sse" ∧ ("sse" : String) ≠ "+sse" :=
  ⟨rfl, rfl, by decide, by decide⟩

/-- C7 amended: when a CPU string is already set, `add_cpu` and
`remove_cpu` append the signed token `+feature` resp. `-feature`,
preserving the prior content as a prefix and performing no deduplication;
when no CPU string is set, both store the bare unsigned feature name. -/
theorem cpu_append_only :
    ∀ (b : Build) (f x : String),
      (b.cpu = some x →
        (b.add_cpu f).cpu = some (x ++ "+" ++ f)
        ∧ (b.remove_cpu f).cpu = some (x ++ "-" ++ f)
        ∧ x.toList <+: (x ++ "+" ++ f).toList
        ∧ x.toList <+: (x ++ "-" ++ f).toList)
      ∧ (b.cpu = none →
        (b.add_cpu f).cpu = some f ∧ (b.remove_cpu f).cpu = some f) := by
  intro b f x
  constructor
  · intro h
    refine ⟨by simp [Build.add_cpu, h], by simp [Build.remove_cpu, h], ?_, ?_⟩
    · simp [String.toList, List.append_assoc]
    · simp [String.toList, List.append_assoc]
  · intro h
    exact ⟨by simp [Build.add_cpu, h], by simp [Build.remove_cpu, h]⟩

/-- Witness for the amended C7 at concrete inputs. -/
theorem cpu_append_only_witness :
    ((exampleBuild.setCpu "base").add_cpu "sse").cpu = some ("base" ++ "+" ++ "sse")
    ∧ ((exampleBuild.setCpu "base").remove_cpu "mmx").cpu
      = some ("base" ++ "-" ++ "mmx")
    ∧ (exampleBuild.add_cpu "sse").cpu = some "sse" :=
  ⟨((cpu_append_only (exampleBuild.setCpu "base") "sse" "base").1 rfl).1,
   ((cpu_append_only (exampleBuild.setCpu "base") "mmx" "base").1 rfl).2.1,
   ((cpu_append_only exampleBuild "sse" "x").2 rfl).1⟩

/-- C8 counterexample: resolution's environment lookups do not go through
the memoizing cache.  `cachedProfileBuild` has `PROFILE` cached as
`"debug"` (whose mapping would leave `release` unset), yet resolving under
a live environment with `PROFILE=release` observes the live value and sets
`release = Auto`: the lookup re-read the environment instead of returning
the cached value. -/
theorem resolution_lookup_bypasses_cache :
    cachedProfileBuild.envCache.lookup "PROFILE" = some (some "debug")
    ∧ (resolveOptimize liveReleaseEnv cachedProfileBuild).map
        (fun b => (b.release, b.optimize))
      = .ok (some ReleaseMode.Auto, some Optimize.ReleaseSafe)
    ∧ profileOptimize "debug" = (Optimize.Debug, false)
    ∧ Optimize.Debug ≠ Optimize.Default :=
  ⟨rfl, rfl, rfl, by decide⟩

/-- C8 amended: lookups made through `Build::getenv_os` are memoized — a
second lookup of the same name returns the stored value and leaves the
cache unchanged even if the live environment has changed, and a first
lookup stores the live result, absence included.  (Resolution's lookups use
`getenv_unwrap`, which bypasses this cache.) -/
theorem getenv_os_memoized :
    ∀ (b b1 : Build) (env env2 : Env) (v : String) (r : Option String),
      (b.getenv_os env v = (r, b1) → b1.getenv_os env2 v = (r, b1))
      ∧ (b.envCache.lookup v = none →
        b.getenv_os env v
          = (env v, { b with envCache := (v, env v) :: b.envCache })) := by
  intro b b1 env env2 v r
  constructor
  · intro h
    unfold Build.getenv_os at h ⊢
    cases hl : b.envCache.lookup v with
    | some val =>
      rw [hl] at h
      injection h with h1 h2
      subst h1; subst h2
      rw [hl]
    | none =>
      rw [hl] at h
      injection h with h1 h2
      subst h1; subst h2
      simp [List.lookup_cons]
  · intro hl
    unfold Build.getenv_os
    rw [hl]

/-- Witness for the amended C8 at concrete inputs. -/
theorem getenv_os_memoized_witness :
    ((exampleBuild.getenv_os liveReleaseEnv "PROFILE").2.getenv_os
        (fun _ => none) "PROFILE"
      = ((exampleBuild.getenv_os liveReleaseEnv "PROFILE").1,
         (exampleBuild.getenv_os liveReleaseEnv "PROFILE").2))
    ∧ exampleBuild.getenv_os liveReleaseEnv "PROFILE"
      = (liveReleaseEnv "PROFILE",
         { exampleBuild with
           envCache := ("PROFILE", liveReleaseEnv "PROFILE")
             :: exampleBuild.envCache }) :=
  ⟨(getenv_os_memoized exampleBuild
      (exampleBuild.getenv_os liveReleaseEnv "PROFILE").2 liveReleaseEnv
      (fun _ => none) "PROFILE"
      (exampleBuild.getenv_os liveReleaseEnv "PROFILE").1).1 rfl,
   (getenv_os_memoized exampleBuild exampleBuild liveReleaseEnv liveReleaseEnv
      "PROFILE" none).2 rfl⟩

/-- C1 counterexample: with both optimization fields unset and the
environment `PROFILE=release`, `OPT_LEVEL=2`, resolution sets both
`ReleaseMode::Auto` and the explicit (non-default) variant
`Optimize::ReleaseSafe` — not at most one of them. -/
theorem resolution_sets_both_axes :
    exampleBuild.release = none ∧ exampleBuild.optimize = none
    ∧ (resolveOptimize liveReleaseEnv exampleBuild).map
        (fun b => (b.release, b.optimize))
      = .ok (some ReleaseMode.Auto, some Optimize.ReleaseSafe)
    ∧ Optimize.ReleaseSafe ≠ Optimize.Default :=
  ⟨rfl, rfl, rfl, by decide⟩

/-- A concrete environment with a debug profile. -/
def debugEnv : Env := fun v =>
  if v = "PROFILE" then some "debug"
  else if v = "OPT_LEVEL" then some "0"
  else none

/-- A concrete environment supplying every variable resolution reads. -/
def resolutionEnv : Env := fun v =>
  if v = "OUT_DIR" then some "/out"
  else if v = "PROFILE" then some "release"
  else if v = "OPT_LEVEL" then some "2"
  else if v = "CARGO_CFG_TARGET_ARCH" then some "x86_64"
  else if v = "CARGO_CFG_TARGET_OS" then some "linux"
  else if v = "CARGO_CFG_TARGET_ENV" then some "gnu"
  else if v = "CARGO_CFG_TARGET_ABI" then some ""
  else if v = "CARGO_CFG_TARGET_FEATURE" then some "fxsr,sse,cmpxchg16b"
  else none

/-- A configuration with every resolution-guarded field already set. -/
def fullBuild : Build :=
  (((exampleBuild.setPrefix "/cwd" "out").setRelease
    ReleaseMode.Fast).setTarget "t").setCacheDir "/cwd" "cache"

theorem resolvePrefix_noop (env : Env) (cwd : String) (b : Build)
    (h : b.prefixDir.isSome = true) : resolvePrefix env cwd b = .ok b := by
  have h' : b.prefixDir.isNone = false := by
    cases hh : b.prefixDir <;> simp_all
  simp [resolvePrefix, h']

theorem resolveOptimize_noop (env : Env) (b : Build)
    (h : b.release.isSome = true ∨ b.optimize.isSome = true) :
    resolveOptimize env b = .ok b := by
  have h' : (b.release.isNone && b.optimize.isNone) = false := by
    rcases h with h | h <;> cases hr : b.release <;> cases ho : b.optimize <;>
      simp_all
  simp [resolveOptimize, h']

theorem resolveTarget_noop (env : Env) (b : Build)
    (h : b.target.isSome = true) : resolveTarget env b = .ok b := by
  have h' : b.target.isNone = false := by
    cases hh : b.target <;> simp_all
  simp [resolveTarget, h']

theorem resolveCacheDir_noop (env : Env) (cwd : String) (b : Build)
    (h : b.cacheDir.isSome = true) : resolveCacheDir env cwd b = .ok b := by
  have h' : b.cacheDir.isNone = false := by
    cases hh : b.cacheDir <;> simp_all
  simp [resolveCacheDir, h']

theorem resolvePrefix_fields (env : Env) (cwd : String) (b b1 : Build)
    (h : resolvePrefix env cwd b = .ok b1) :
    b1.prefixDir.isSome = true
    ∧ b1.release = b.release ∧ b1.optimize = b.optimize
    ∧ b1.target = b.target ∧ b1.cpu = b.cpu ∧ b1.cacheDir = b.cacheDir := by
  unfold resolvePrefix at h
  split at h
  · split at h
    · exact absurd h (by simp)
    · injection h with h1
      subst h1
      simp [Build.setPrefix]
  · injection h with h1
    subst h1
    rename_i hg
    refine ⟨?_, rfl, rfl, rfl, rfl, rfl⟩
    cases hh : b.prefixDir <;> simp_all

theorem resolveOptimize_fields (env : Env) (b b1 : Build)
    (h : resolveOptimize env b = .ok b1) :
    (b1.release.isSome = true ∨ b1.optimize.isSome = true)
    ∧ b1.prefixDir = b.prefixDir ∧ b1.target = b.target
    ∧ b1.cpu = b.cpu ∧ b1.cacheDir = b.cacheDir := by
  unfold resolveOptimize at h
  split at h
  · split at h
    · exact absurd h (by simp)
    · split at h
      · exact absurd h (by simp)
      · injection h with h1
        subst h1
        refine ⟨Or.inr (by simp [Build.setOptimize]), ?_, ?_, ?_, ?_⟩ <;>
          (split <;> simp [Build.setRelease, Build.setOptimize])
  · injection h with h1
    subst h1
    rename_i hg
    refine ⟨?_, rfl, rfl, rfl, rfl⟩
    cases hr : b.release <;> cases ho : b.optimize <;> simp_all

theorem resolveTarget_fields (env : Env) (b b1 : Build)
    (h : resolveTarget env b = .ok b1) :
    b1.target.isSome = true
    ∧ b1.prefixDir = b.prefixDir ∧ b1.release = b.release
    ∧ b1.optimize = b.optimize ∧ b1.cacheDir = b.cacheDir := by
  unfold resolveTarget at h
  split at h
  · split at h
    · exact absurd h (by simp)
    · split at h
      · exact absurd h (by simp)
      · injection h with h1
        subst h1
        simp [Build.setTarget, Build.setCpu]
  · split at h
    · split at h
      · exact absurd h (by simp)
      · injection h with h1
        subst h1
        simp [Build.setTarget]
    · injection h with h1
      subst h1
      rename_i hg1 hg2
      refine ⟨?_, rfl, rfl, rfl, rfl⟩
      cases hh : b.target <;> simp_all

theorem resolveCacheDir_fields (env : Env) (cwd : String) (b b1 : Build)
    (h : resolveCacheDir env cwd b = .ok b1) :
    b1.cacheDir.isSome = true
    ∧ b1.prefixDir = b.prefixDir ∧ b1.release = b.release
    ∧ b1.optimize = b.optimize ∧ b1.target = b.target ∧ b1.cpu = b.cpu := by
  unfold resolveCacheDir at h
  split at h
  · split at h
    · exact absurd h (by simp)
    · injection h with h1
      subst h1
      simp [Build.setCacheDir]
  · injection h with h1
    subst h1
    rename_i hg
    refine ⟨?_, rfl, rfl, rfl, rfl, rfl⟩
    cases hh : b.cacheDir <;> simp_all

theorem resolve_ok_steps (env : Env) (cwd : String) (b b' : Build)
    (h : resolve env cwd b = .ok b') :
    ∃ b1 b2 b3, resolvePrefix env cwd b = .ok b1
      ∧ resolveOptimize env b1 = .ok b2
      ∧ resolveTarget env b2 = .ok b3
      ∧ resolveCacheDir env cwd b3 = .ok b' := by
  unfold resolve at h
  cases h1 : resolvePrefix env cwd b with
  | error e => rw [h1] at h; simp at h
  | ok c1 =>
    rw [h1] at h
    simp only [] at h
    cases h2 : resolveOptimize env c1 with
    | error e => rw [h2] at h; simp at h
    | ok c2 =>
      rw [h2] at h
      simp only [] at h
      cases h3 : resolveTarget env c2 with
      | error e => rw [h3] at h; simp at h
      | ok c3 =>
        rw [h3] at h
        simp only [] at h
        exact ⟨c1, c2, c3, rfl, h2, h3, h⟩

/-- The fields whose unset-ness triggers a derivation in `Build::build`. -/
def resolvedInv (b : Build) : Prop :=
  b.prefixDir.isSome = true
  ∧ (b.release.isSome = true ∨ b.optimize.isSome = true)
  ∧ b.target.isSome = true ∧ b.cacheDir.isSome = true

theorem resolve_ok_inv (env : Env) (cwd : String) (b b' : Build)
    (h : resolve env cwd b = .ok b') : resolvedInv b' := by
  obtain ⟨b1, b2, b3, h1, h2, h3, h4⟩ := resolve_ok_steps env cwd b b' h
  obtain p1 := resolvePrefix_fields env cwd b b1 h1
  obtain p2 := resolveOptimize_fields env b1 b2 h2
  obtain p3 := resolveTarget_fields env b2 b3 h3
  obtain p4 := resolveCacheDir_fields env cwd b3 b' h4
  refine ⟨?_, ?_, ?_, p4.1⟩
  · rw [p4.2.1, p3.2.1, p2.2.1]
    exact p1.1
  · rcases p2.1 with hh | hh
    · left
      rw [p4.2.2.1, p3.2.2.1]
      exact hh
    · right
      rw [p4.2.2.2.1, p3.2.2.2.1]
      exact hh
  · rw [p4.2.2.2.2.1]
    exact p3.1

theorem resolve_noop (env : Env) (cwd : String) (b : Build)
    (h : resolvedInv b) : resolve env cwd b = .ok b := by
  obtain ⟨h1, h2, h3, h4⟩ := h
  simp only [resolve, resolvePrefix_noop env cwd b h1,
    resolveOptimize_noop env b h2, resolveTarget_noop env b h3,
    resolveCacheDir_noop env cwd b h4]

/-- C9: configuration resolution is idempotent — on a configuration whose
guard fields are all set it is a no-op, and resolving an already-resolved
configuration again (same environment snapshot) returns it unchanged. -/
theorem resolution_idempotent :
    ∀ (env : Env) (cwd : String) (b b1 : Build),
      (b.prefixDir.isSome = true →
        (b.release.isSome = true ∨ b.optimize.isSome = true) →
        b.target.isSome = true → b.cacheDir.isSome = true →
        resolve env cwd b = .ok b)
      ∧ (resolve env cwd b = .ok b1 → resolve env cwd b1 = .ok b1) := by
  intro env cwd b b1
  constructor
  · intro h1 h2 h3 h4
    exact resolve_noop env cwd b ⟨h1, h2, h3, h4⟩
  · intro h
    exact resolve_noop env cwd b1 (resolve_ok_inv env cwd b b1 h)

/-- The configuration produced by resolving a fresh configuration under
`resolutionEnv`. -/
def resolvedExample : Build :=
  { exampleBuild with
    prefixDir := some "/out/zig-out"
    release := some ReleaseMode.Auto
    optimize := some Optimize.ReleaseSafe
    target := some "x86_64-linux-gnu"
    cpu := some "x86_64+fxsr+sse+cx16"
    cacheDir := some "/out/.zig-cache" }

/-- Witness for C9 at concrete inputs. -/
theorem resolution_idempotent_witness :
    resolve (fun _ => none) "/cwd" fullBuild = .ok fullBuild
    ∧ resolve resolutionEnv "/cwd" resolvedExample = .ok resolvedExample :=
  ⟨(resolution_idempotent (fun _ => none) "/cwd" fullBuild fullBuild).1
      rfl (Or.inl rfl) rfl rfl,
   (resolution_idempotent resolutionEnv "/cwd" exampleBuild
      resolvedExample).2 rfl⟩

theorem resolveOptimize_unset (env : Env) (b : Build) (p l : String)
    (hr : b.release = none) (ho : b.optimize = none)
    (hp : env "PROFILE" = some p) (hl : env "OPT_LEVEL" = some l) :
    resolveOptimize env b
      = .ok ((if (profileOptimize p).1 = .Default
              then b.setRelease .Auto else b).setOptimize
          (optLevelOptimize l (profileOptimize p).1).1) := by
  unfold resolveOptimize
  rw [hr, ho]
  simp [getenv_unwrap, hp, hl]

/-- C1 corrected: when the caller set neither `release` nor `optimize`,
resolution always sets `optimize` to the opt-level mapping's value and sets
`release = Auto` exactly when the profile-derived default is
`Optimize::Default` — so both axes can end up set simultaneously; when the
caller had already set either field, resolution modifies neither field. -/
theorem optimize_axes_resolution :
    ∀ (env : Env) (cwd : String) (b b1 : Build) (p l : String),
      (b.release = none → b.optimize = none →
        env "PROFILE" = some p → env "OPT_LEVEL" = some l →
        resolveOptimize env b = .ok b1 →
        b1.optimize = some (optLevelOptimize l (profileOptimize p).1).1
        ∧ b1.release = (if (profileOptimize p).1 = Optimize.Default
                        then some ReleaseMode.Auto else none))
      ∧ ((b.release.isSome = true ∨ b.optimize.isSome = true) →
        resolve env cwd b = .ok b1 →
        b1.release = b.release ∧ b1.optimize = b.optimize) := by
  intro env cwd b b1 p l
  constructor
  · intro hr ho hp hl h
    rw [resolveOptimize_unset env b p l hr ho hp hl] at h
    injection h with h1
    subst h1
    constructor
    · simp [Build.setOptimize]
    · by_cases hc : (profileOptimize p).1 = Optimize.Default
      · simp [hc, Build.setOptimize, Build.setRelease]
      · simp [hc, Build.setOptimize, hr]
  · intro hset h
    obtain ⟨c1, c2, c3, h1, h2, h3, h4⟩ := resolve_ok_steps env cwd b b1 h
    obtain p1 := resolvePrefix_fields env cwd b c1 h1
    have hset1 : c1.release.isSome = true ∨ c1.optimize.isSome = true := by
      rw [p1.2.1, p1.2.2.1]
      exact hset
    have h2' : c2 = c1 := by
      rw [resolveOptimize_noop env c1 hset1] at h2
      injection h2 with hh
      exact hh.symm
    obtain p3 := resolveTarget_fields env c2 c3 h3
    obtain p4 := resolveCacheDir_fields env cwd c3 b1 h4
    constructor
    · rw [p4.2.2.1, p3.2.2.1, h2', p1.2.1]
    · rw [p4.2.2.2.1, p3.2.2.2.1, h2', p1.2.2.1]

/-- The configuration produced by the optimization step under
`liveReleaseEnv` on a fresh configuration. -/
def releaseResolved : Build :=
  { exampleBuild with
    release := some ReleaseMode.Auto
    optimize := some Optimize.ReleaseSafe }

/-- Witness for the amended C1 at concrete inputs. -/
theorem optimize_axes_resolution_witness :
    (releaseResolved.optimize
        = some (optLevelOptimize "2" (profileOptimize "release").1).1
      ∧ releaseResolved.release
        = (if (profileOptimize "release").1 = Optimize.Default
           then some ReleaseMode.Auto else none))
    ∧ (fullBuild.release = fullBuild.release
      ∧ fullBuild.optimize = fullBuild.optimize) :=
  ⟨(optimize_axes_resolution liveReleaseEnv "/cwd" exampleBuild
      releaseResolved "release" "2").1 rfl rfl rfl rfl rfl,
   (optimize_axes_resolution (fun _ => none) "/cwd" fullBuild fullBuild
      "p" "l").2 (Or.inl rfl) rfl⟩

/-- C2: the profile mapping (`debug` to Debug, `release`/`bench` to Default,
anything else to a warning with fallback Default), the opt-level mapping
(`0` to Debug, `1`/`2`/`3` to ReleaseSafe, `s`/`z` to ReleaseSmall,
anything else to a warning reusing the profile default), that the opt-level
mapping takes final precedence for `optimize`, that `release = Auto` is set
exactly when the profile default was `Default`, and the profile=debug,
opt-level=0 instance. -/
theorem optimize_mapping :
    ∀ (env : Env) (b b1 : Build) (p l : String) (d : Optimize),
      profileOptimize "debug" = (Optimize.Debug, false)
      ∧ profileOptimize "release" = (Optimize.Default, false)
      ∧ profileOptimize "bench" = (Optimize.Default, false)
      ∧ (p ≠ "debug" → p ≠ "release" → p ≠ "bench" →
         profileOptimize p = (Optimize.Default, true))
      ∧ optLevelOptimize "0" d = (Optimize.Debug, false)
      ∧ optLevelOptimize "1" d = (Optimize.ReleaseSafe, false)
      ∧ optLevelOptimize "2" d = (Optimize.ReleaseSafe, false)
      ∧ optLevelOptimize "3" d = (Optimize.ReleaseSafe, false)
      ∧ optLevelOptimize "s" d = (Optimize.ReleaseSmall, false)
      ∧ optLevelOptimize "z" d = (Optimize.ReleaseSmall, false)
      ∧ (l ≠ "0" → l ≠ "1" → l ≠ "2" → l ≠ "3" → l ≠ "s" → l ≠ "z" →
         optLevelOptimize l d = (d, true))
      ∧ (b.release = none → b.optimize = none →
         env "PROFILE" = some p → env "OPT_LEVEL" = some l →
         resolveOptimize env b = .ok b1 →
         b1.optimize = some (optLevelOptimize l (profileOptimize p).1).1
         ∧ (b1.release = some ReleaseMode.Auto
            ↔ (profileOptimize p).1 = Optimize.Default))
      ∧ (b.release = none → b.optimize = none →
         env "PROFILE" = some "debug" → env "OPT_LEVEL" = some "0" →
         resolveOptimize env b = .ok b1 →
         b1.optimize = some Optimize.Debug ∧ b1.release = none) := by
  intro env b b1 p l d
  refine ⟨rfl, rfl, rfl, ?_, rfl, rfl, rfl, rfl, rfl, rfl, ?_, ?_, ?_⟩
  · intro h1 h2 h3
    simp [profileOptimize, h1, h2, h3]
  · intro h1 h2 h3 h4 h5 h6
    simp [optLevelOptimize, h1, h2, h3, h4, h5, h6]
  · intro hr ho hp hl h
    rw [resolveOptimize_unset env b p l hr ho hp hl] at h
    injection h with h1
    subst h1
    constructor
    · simp [Build.setOptimize]
    · by_cases hc : (profileOptimize p).1 = Optimize.Default
      · simp [hc, Build.setOptimize, Build.setRelease]
      · simp [hc, Build.setOptimize, hr]
  · intro hr ho hp hl h
    rw [resolveOptimize_unset env b "debug" "0" hr ho hp hl] at h
    injection h with h1
    subst h1
    constructor
    · simp [Build.setOptimize, profileOptimize, optLevelOptimize]
    · simp [Build.setOptimize, Build.setRelease, profileOptimize,
        optLevelOptimize, hr]

/-- The configuration produced by the optimization step under `debugEnv`
on a fresh configuration. -/
def debugResolved : Build :=
  { exampleBuild with optimize := some Optimize.Debug }

/-- Witness for C2 at concrete inputs. -/
theorem optimize_mapping_witness :
    profileOptimize "weird" = (Optimize.Default, true)
    ∧ optLevelOptimize "4" Optimize.Debug = (Optimize.Debug, true)
    ∧ (debugResolved.optimize = some Optimize.Debug
      ∧ debugResolved.release = none) := by
  obtain ⟨-, -, -, m4, -, -, -, -, -, -, m11, -, m13⟩ :=
    optimize_mapping debugEnv exampleBuild debugResolved "weird" "4"
      Optimize.Debug
  exact ⟨m4 (by decide) (by decide) (by decide),
         m11 (by decide) (by decide) (by decide) (by decide) (by decide)
           (by decide),
         m13 rfl rfl rfl rfl rfl⟩

theorem parse_target_triplet_eq (env : Env) (arch sys envv abi : String)
    (h1 : env "CARGO_CFG_TARGET_ARCH" = some arch)
    (h2 : env "CARGO_CFG_TARGET_OS" = some sys)
    (h3 : env "CARGO_CFG_TARGET_ENV" = some envv)
    (h4 : env "CARGO_CFG_TARGET_ABI" = some abi) :
    parse_target_triplet env
      = .ok (if (envv ++ abi).data.isEmpty
             then (arch ++ "-" ++ sys, arch, sys, none)
             else (arch ++ "-" ++ sys ++ "-" ++ (envv ++ abi), arch, sys,
                   some (envv ++ abi))) := by
  unfold parse_target_triplet
  simp only [getenv_unwrap, h1, h2, h3, h4]
  by_cases hz : (envv ++ abi).data.isEmpty
  · rw [if_pos hz, if_pos hz]
  · rw [if_neg hz, if_neg hz]

/-- C3: with neither target nor CPU set, resolution derives the target
triple as `arch-os` when the concatenation of environment and ABI is empty
and `arch-os-envabi` otherwise, and derives the CPU string by passing the
architecture name plus every comma-separated target-feature entry through
the feature translator and joining with `+`; with only the target unset,
the target alone is derived and the CPU string is untouched. -/
theorem target_cpu_resolution :
    ∀ (env : Env) (b b1 : Build) (arch sys envv abi feats : String),
      env "CARGO_CFG_TARGET_ARCH" = some arch →
      env "CARGO_CFG_TARGET_OS" = some sys →
      env "CARGO_CFG_TARGET_ENV" = some envv →
      env "CARGO_CFG_TARGET_ABI" = some abi →
      env "CARGO_CFG_TARGET_FEATURE" = some feats →
      ((b.target = none → b.cpu = none → resolveTarget env b = .ok b1 →
        b1.target = some (if (envv ++ abi).data.isEmpty
                          then arch ++ "-" ++ sys
                          else arch ++ "-" ++ sys ++ "-" ++ (envv ++ abi))
        ∧ b1.cpu = some (String.intercalate "+"
            ((arch :: strSplitOnChar feats ',').map
              (fun f => translate_arch_feature arch f))))
      ∧ (b.target = none → b.cpu.isSome = true →
        resolveTarget env b = .ok b1 →
        b1.target = some (if (envv ++ abi).data.isEmpty
                          then arch ++ "-" ++ sys
                          else arch ++ "-" ++ sys ++ "-" ++ (envv ++ abi))
        ∧ b1.cpu = b.cpu)) := by
  intro env b b1 arch sys envv abi feats h1 h2 h3 h4 h5
  constructor
  · intro ht hc h
    unfold resolveTarget at h
    rw [ht, hc, parse_target_triplet_eq env arch sys envv abi h1 h2 h3 h4] at h
    by_cases hz : (envv ++ abi).data.isEmpty
    · rw [if_pos hz] at h
      simp only [Option.isNone_none, Bool.and_self, if_true, if_pos,
        getenv_unwrap, h5] at h
      injection h with hh
      subst hh
      rw [if_pos hz]
      simp [Build.setTarget, Build.setCpu]
    · rw [if_neg hz] at h
      simp only [Option.isNone_none, Bool.and_self, if_true, if_pos,
        getenv_unwrap, h5] at h
      injection h with hh
      subst hh
      rw [if_neg hz]
      simp [Build.setTarget, Build.setCpu]
  · intro ht hc h
    have hcn : b.cpu.isNone = false := by
      cases hh : b.cpu <;> simp_all
    unfold resolveTarget at h
    rw [ht, parse_target_triplet_eq env arch sys envv abi h1 h2 h3 h4] at h
    simp only [hcn, Option.isNone_none, Bool.and_false, Bool.false_eq_true,
      if_false, if_true] at h
    by_cases hz : (envv ++ abi).data.isEmpty
    · rw [if_pos hz] at h
      injection h with hh
      subst hh
      rw [if_pos hz]
      simp [Build.setTarget]
    · rw [if_neg hz] at h
      injection h with hh
      subst hh
      rw [if_neg hz]
      simp [Build.setTarget]

/-- The configuration produced by the target step under `resolutionEnv`
on a fresh configuration. -/
def targetResolved : Build :=
  { exampleBuild with
    target := some "x86_64-linux-gnu"
    cpu := some "x86_64+fxsr+sse+cx16" }

/-- A configuration whose CPU string was set explicitly by the caller. -/
def cpuSetBuild : Build := exampleBuild.setCpu "mycpu"

/-- The configuration produced by the target step under `resolutionEnv`
on `cpuSetBuild`: only the target is derived. -/
def cpuSetResolved : Build :=
  { cpuSetBuild with target := some "x86_64-linux-gnu" }

/-- Witness for C3 at concrete inputs. -/
theorem target_cpu_resolution_witness :
    (targetResolved.target
        = some (if ("gnu" ++ "").data.isEmpty then "x86_64" ++ "-" ++ "linux"
                else "x86_64" ++ "-" ++ "linux" ++ "-" ++ ("gnu" ++ ""))
      ∧ targetResolved.cpu = some (String.intercalate "+"
          (("x86_64" :: strSplitOnChar "fxsr,sse,cmpxchg16b" ',').map
            (fun f => translate_arch_feature "x86_64" f))))
    ∧ (cpuSetResolved.target
        = some (if ("gnu" ++ "").data.isEmpty then "x86_64" ++ "-" ++ "linux"
                else "x86_64" ++ "-" ++ "linux" ++ "-" ++ ("gnu" ++ ""))
      ∧ cpuSetResolved.cpu = cpuSetBuild.cpu) :=
  ⟨(target_cpu_resolution resolutionEnv exampleBuild targetResolved
      "x86_64" "linux" "gnu" "" "fxsr,sse,cmpxchg16b"
      rfl rfl rfl rfl rfl).1 rfl rfl rfl,
   (target_cpu_resolution resolutionEnv cpuSetBuild cpuSetResolved
      "x86_64" "linux" "gnu" "" "fxsr,sse,cmpxchg16b"
      rfl rfl rfl rfl rfl).2 rfl rfl rfl⟩

/-- C4: the compiled argument vector is the fixed `build` token, then the
invocation-selector step, then the general options in their fixed declared
order, then the project-specific options (target, CPU, dynamic linker,
optimize) in that order, then the caller's free-form options verbatim in
insertion order, then the advanced/debug options; and the emitted vector is
insensitive to the order in which setters touching distinct fields were
called. -/
theorem invocation_order :
    ∀ (b : Build) (s t : Setter),
      compileArgs b
        = "build" :: (stepSection b ++ generalSection b ++ projectSection b
            ++ b.options ++ advancedSection b)
      ∧ (s.fieldIndex ≠ t.fieldIndex →
          s.apply (t.apply b) = t.apply (s.apply b)) := by
  intro b s t
  constructor
  · simp [compileArgs, stepSection, generalSection, projectSection,
      advancedSection, List.append_assoc]
  · intro h
    cases s <;> cases t <;> first
      | rfl
      | exact absurd rfl h

/-- Witness for C4 at concrete inputs. -/
theorem invocation_order_witness :
    compileArgs fullBuild
      = "build" :: (stepSection fullBuild ++ generalSection fullBuild
          ++ projectSection fullBuild ++ fullBuild.options
          ++ advancedSection fullBuild)
    ∧ (Setter.sJobs 2).apply ((Setter.sTarget "t").apply exampleBuild)
      = (Setter.sTarget "t").apply ((Setter.sJobs 2).apply exampleBuild) :=
  ⟨(invocation_order fullBuild (Setter.sJobs 2) (Setter.sTarget "t")).1,
   (invocation_order exampleBuild (Setter.sJobs 2) (Setter.sTarget "t")).2
     (by decide)⟩

end Zigcli
